import Mathlib

/-!
Verification development for the scenegraph-experimental repository
(src/scene.ts, src/timeline.ts).

The TypeScript source is shallowly embedded:

* JavaScript numbers are modelled as exact rationals.  To keep every
  definition kernel-computable we use our own normalized fraction type
  `JsNum` (an `Int` numerator and a positive `Nat` denominator, reduced
  with `Nat.gcd`); all operations normalize, so propositional equality
  of `JsNum` values coincides with numeric equality.  All numbers that
  appear in the claims are exact decimals, where this model agrees with
  IEEE doubles.
* JavaScript strings are modelled as `List Char` (`Str`); for the ASCII
  strings used by the source, UTF-16 code-unit comparison coincides with
  comparing `Char.toNat` values.
* `Array.prototype.sort()` called with no comparator (as the source does
  for keyframe times and event times) sorts by comparing the elements
  converted to strings; `jsSortNums` embeds exactly that, using the
  decimal rendering `decStr`.
* Exceptions are modelled with `Option JsError` results paired with the
  state as mutated so far (JavaScript exceptions do not roll back earlier
  field assignments).  A result of `none` for an `Option`-returning
  operation models nontermination or a JavaScript TypeError crash; doc
  comments note which.
-/

/-- JavaScript strings, as lists of characters. -/
abbrev Str := List Char

/-- A JavaScript number, modelled as an exact rational: integer numerator
and positive denominator, kept reduced by the smart constructor `JsNum.mk'`. -/
structure JsNum where
  num : Int
  den : Nat
  deriving DecidableEq

/-- Build a reduced fraction.  The denominator 0 case is unreachable in
this development (commented at each use). -/
def JsNum.mk' (n : Int) (d : Nat) : JsNum :=
  if d = 0 then ⟨0, 0⟩
  else
    let g := Nat.gcd n.natAbs d
    ⟨n / (g : Int), d / g⟩

def JsNum.ofInt (n : Int) : JsNum := ⟨n, 1⟩

instance : OfNat JsNum n := ⟨JsNum.ofInt n⟩

def JsNum.add (a b : JsNum) : JsNum :=
  JsNum.mk' (a.num * (b.den : Int) + b.num * (a.den : Int)) (a.den * b.den)

def JsNum.sub (a b : JsNum) : JsNum :=
  JsNum.mk' (a.num * (b.den : Int) - b.num * (a.den : Int)) (a.den * b.den)

def JsNum.mul (a b : JsNum) : JsNum :=
  JsNum.mk' (a.num * b.num) (a.den * b.den)

/-- Division; a zero divisor would be `Infinity`/`NaN` in JavaScript and is
unreachable in every run of this development. -/
def JsNum.div (a b : JsNum) : JsNum :=
  JsNum.mk' (a.num * (b.den : Int) * (if b.num < 0 then -1 else 1)) (a.den * b.num.natAbs)

def JsNum.leB (a b : JsNum) : Bool := a.num * (b.den : Int) ≤ b.num * (a.den : Int)

def JsNum.ltB (a b : JsNum) : Bool := a.num * (b.den : Int) < b.num * (a.den : Int)

/-- `Math.max` on two numbers. -/
def JsNum.max2 (a b : JsNum) : JsNum := if a.leB b then b else a

/-- Decimal digits of the fractional part `r / d`, most significant first,
stopping when the remainder is zero (so there are no trailing zeros); the
fuel of 20 digits covers every number in this development exactly. -/
def fracDigits : Nat → Nat → Nat → List Char
  | _, _, 0 => []
  | r, d, fuel+1 =>
    if r = 0 then []
    else (Char.ofNat (48 + r * 10 / d)) :: fracDigits (r * 10 % d) d fuel

/-- The string a JavaScript number prints as (`String(x)`), for the exact
decimals used here: optional minus sign, integer part, and a fractional
part without trailing zeros. -/
def decStr (q : JsNum) : Str :=
  let n := q.num.natAbs
  let ip := (Nat.repr (n / q.den)).toList
  let fr := fracDigits (n % q.den) q.den 20
  let core := if fr.isEmpty then ip else ip ++ [Char.ofNat 46] ++ fr
  if q.num < 0 then (Char.ofNat 45) :: core else core

/-- UTF-16 code-unit lexicographic comparison of strings, as used by the
default comparator of `Array.prototype.sort` (for the BMP characters
produced by `decStr`, `Char.toNat` is the code unit). -/
def strLt : Str → Str → Bool
  | [], [] => false
  | [], _ :: _ => true
  | _ :: _, [] => false
  | a :: as', b :: bs' =>
    if a.toNat < b.toNat then true
    else if b.toNat < a.toNat then false
    else strLt as' bs'

/-- Stable insertion of a number into a list sorted by `decStr` order. -/
def jsSortInsert (x : JsNum) : List JsNum → List JsNum
  | [] => [x]
  | y :: ys => if strLt (decStr x) (decStr y) then x :: y :: ys else y :: jsSortInsert x ys

/-- `Array.prototype.sort()` with the default comparator: the elements are
compared as strings.  This is the sort the source applies to keyframe
times and event times. -/
def jsSortNums (l : List JsNum) : List JsNum := l.foldl (fun acc x => jsSortInsert x acc) []

/-- Association-list lookup keyed by strings (a JavaScript object used as a
dictionary): the first entry with the key, if any. -/
def lookupStr {α : Type} : List (Str × α) → Str → Option α
  | [], _ => none
  | p :: rest, k => if p.1 = k then some p.2 else lookupStr rest k

/-- Association-list lookup keyed by numbers. -/
def lookupNum {α : Type} : List (JsNum × α) → JsNum → Option α
  | [], _ => none
  | p :: rest, k => if p.1 = k then some p.2 else lookupNum rest k

/-- `obj[k] = v` on a dictionary object: overwrite an existing entry in
place, otherwise append. -/
def assocSetStr {α : Type} (l : List (Str × α)) (k : Str) (v : α) : List (Str × α) :=
  if (lookupStr l k).isSome then l.map (fun p => if p.1 = k then (k, v) else p)
  else l ++ [(k, v)]

/-- `obj[k] = v` keyed by numbers. -/
def assocSetNum {α : Type} (l : List (JsNum × α)) (k : JsNum) (v : α) : List (JsNum × α) :=
  if (lookupNum l k).isSome then l.map (fun p => if p.1 = k then (k, v) else p)
  else l ++ [(k, v)]

/-- `delete obj[k]` keyed by numbers. -/
def assocEraseNum {α : Type} (l : List (JsNum × α)) (k : JsNum) : List (JsNum × α) :=
  l.filter (fun p => ¬ (p.1 = k))

/-- Indexing `arr[i]` with a possibly negative index: out of range reads
give `undefined`, modelled as `none`. -/
def jsIdx (l : List JsNum) (i : Int) : Option JsNum :=
  if i < 0 then none else l.get? i.toNat

/-- `x > t` where `x` may be `undefined`: comparisons against `undefined`
are false in JavaScript. -/
def jsGtOB (x : Option JsNum) (t : JsNum) : Bool :=
  match x with
  | none => false
  | some v => t.ltB v

/-- `x <= t` where `x` may be `undefined`. -/
def jsLeOB (x : Option JsNum) (t : JsNum) : Bool :=
  match x with
  | none => false
  | some v => v.leB t

/-- Array destructuring read `arr[i]` on a string array (used for the two
halves of `path.split(':')`); a missing element is `undefined`, which the
validated paths never produce, so the empty string stands in as the
default. -/
def jsArrGet (l : List Str) (i : Nat) : Str := (l.get? i).getD []


/-!
## PropertyTimeline (src/timeline.ts, class PropertyTimeline)

The `Keyframe` wrapper `{value: number}` is flattened to the number it
wraps; `keyframes` (a JavaScript object keyed by numbers) is an
association list, `sortedTimes` the array of times, `cursor` the seek
cursor (an `Int`, since `removeKeyframe` can in principle store `-1`).
-/

structure PropertyTimeline where
  sortedTimes : List JsNum
  keyframes : List (JsNum × JsNum)
  length : Option JsNum
  cursor : Int
  deriving DecidableEq

/-- A fresh PropertyTimeline: `sortedTimes = []`, `keyframes = {}`,
`length = 0`, `cursor = 0`. -/
def PropertyTimeline.new : PropertyTimeline := ⟨[], [], some 0, 0⟩

/-- `updateLength`: `this.length = this.sortedTimes[this.sortedTimes.length - 1]`;
on an empty array this stores `undefined` (`none`). -/
def PropertyTimeline.updateLength (pt : PropertyTimeline) : PropertyTimeline :=
  { pt with length := pt.sortedTimes.getLast? }

/-- `addKeyframe(time, value)`: store the keyframe, push the time, re-sort
with the default (string) comparator, recompute `length`. -/
def PropertyTimeline.addKeyframe (pt : PropertyTimeline) (time value : JsNum) :
    PropertyTimeline :=
  PropertyTimeline.updateLength
    { pt with
      keyframes := assocSetNum pt.keyframes time value
      sortedTimes := jsSortNums (pt.sortedTimes ++ [time]) }

/-- `splice(indexOf(time), 1)`: removes the first occurrence of `time`; when
`time` is absent, `indexOf` gives `-1` and `splice(-1, 1)` removes the LAST
element. -/
def jsSpliceIndexOf (l : List JsNum) (t : JsNum) : List JsNum :=
  if l.contains t then l.erase t else l.dropLast

/-- `removeKeyframe(time)`: delete the entry, splice the time out of
`sortedTimes`, clamp a now-dangling nonzero cursor down to the last index,
recompute `length`. -/
def PropertyTimeline.removeKeyframe (pt : PropertyTimeline) (time : JsNum) :
    PropertyTimeline :=
  let st := jsSpliceIndexOf pt.sortedTimes time
  let lastKeyframe : Int := (st.length : Int) - 1
  let cur := if pt.cursor ≠ 0 ∧ lastKeyframe < pt.cursor then lastKeyframe else pt.cursor
  PropertyTimeline.updateLength
    { pt with
      keyframes := assocEraseNum pt.keyframes time
      sortedTimes := st
      cursor := cur }

/-- Outcome of the backward cursor walk in `getValue`: the walk either
returns a value early (query before the first keyframe) or falls through
to the shared tail with a final cursor. -/
inductive GvBackOut where
  | ret (v : JsNum) (cursor : Int)
  | fall (cursor : Int)

/-- The backward do-while of `getValue`, entered when
`sortedTimes[cursor] > time`: if the cursor is 0, return the first
keyframe value; otherwise decrement and repeat while the keyframe at
the cursor is still later than the query.  `none` models the TypeError
crash of reading `.value` off a missing keyframe entry.  The fuel is
`cursor + 2`, enough for every walk down to 0. -/
def gvBack (kfs : List (JsNum × JsNum)) (st : List JsNum) (time : JsNum) :
    Int → Nat → Option GvBackOut
  | _, 0 => none
  | cursor, fuel+1 =>
    if cursor = 0 then
      match jsIdx st 0 with
      | none => none
      | some t0 =>
        match lookupNum kfs t0 with
        | none => none
        | some v => some (.ret v 0)
    else
      let c := cursor - 1
      if jsGtOB (jsIdx st c) time then gvBack kfs st time c fuel
      else some (.fall c)

/-- The forward while of `getValue`: advance the cursor while it is not on
the last keyframe and the next keyframe time is `<=` the query time. -/
def gvFwd (st : List JsNum) (time : JsNum) : Int → Nat → Int
  | cursor, 0 => cursor
  | cursor, fuel+1 =>
    if (st.length : Int) - 1 > cursor ∧ jsLeOB (jsIdx st (cursor + 1)) time then
      gvFwd st time (cursor + 1) fuel
    else cursor

/-- The shared tail of `getValue` after the cursor seek: exact hit at the
cursor returns the stored value, otherwise linear interpolation between
the cursor keyframe and the next one.  `none` models a TypeError crash
(reading a keyframe entry that does not exist). -/
def gvTail (pt : PropertyTimeline) (time : JsNum) (c : Int) :
    Option (Option JsNum × PropertyTimeline) :=
  match jsIdx pt.sortedTimes c with
  | none => none
  | some tc =>
    if time = tc then
      match lookupNum pt.keyframes tc with
      | none => none
      | some v => some (some v, { pt with cursor := c })
    else
      match jsIdx pt.sortedTimes (c + 1) with
      | none => none
      | some tc1 =>
        match lookupNum pt.keyframes tc, lookupNum pt.keyframes tc1 with
        | some v0, some v1 =>
          let linearTime := (time.sub tc).div (tc1.sub tc)
          some (some (v0.add (linearTime.mul (v1.sub v0))), { pt with cursor := c })
        | _, _ => none

/-- `getValue(time)`: `none` keyframes means "no control" (`null`); else the
cursor is seeked backward or forward as in the source and the value is
read or interpolated.  The outer `Option` models a TypeError crash, which
no reachable state of this development produces. -/
def PropertyTimeline.getValue (pt : PropertyTimeline) (time : JsNum) :
    Option (Option JsNum × PropertyTimeline) :=
  if pt.sortedTimes.isEmpty then some (none, pt)
  else
    if jsGtOB (jsIdx pt.sortedTimes pt.cursor) time then
      match gvBack pt.keyframes pt.sortedTimes time pt.cursor (pt.cursor.toNat + 2) with
      | none => none
      | some (.ret v c) => some (some v, { pt with cursor := c })
      | some (.fall c) => gvTail { pt with cursor := c } time c
    else
      let c := gvFwd pt.sortedTimes time pt.cursor (pt.sortedTimes.length + 2)
      if c = (pt.sortedTimes.length : Int) - 1 then
        match jsIdx pt.sortedTimes c with
        | none => none
        | some tc =>
          match lookupNum pt.keyframes tc with
          | none => none
          | some v => some (some v, { pt with cursor := c })
      else gvTail { pt with cursor := c } time c

/-!
## Property paths (src/scene.ts, PROPERTY_PATH_REGEX) and resolution targets

`PROPERTY_PATH_REGEX` is `^(E)+(\/(E)+)*:V(\.V)*$` with
`E = [0-9a-zA-Z_]|([0-9a-zA-Z_]+[0-9a-zA-Z_\s]*?[0-9a-zA-Z_])` and
`V = [a-zA-Z_$]+[0-9a-zA-Z_$]*`.  A concatenation `(E)+` matches exactly
the nonempty strings over name characters and whitespace that start and
end on a name character, and `V(\.V)*` matches dot-separated identifier
segments; `isValidPropertyPath` decides that language directly.  The
whitespace class is modelled by its ASCII members plus NBSP (the claims
use no whitespace at all).
-/

def isNameChar (c : Char) : Bool := c.isAlphanum || c = '_'

def isWsChar (c : Char) : Bool :=
  c = ' ' || c = Char.ofNat 9 || c = Char.ofNat 10 || c = Char.ofNat 11 ||
  c = Char.ofNat 12 || c = Char.ofNat 13 || c = Char.ofNat 160

def isFieldStartChar (c : Char) : Bool := c.isAlpha || c = '_' || c = '$'

def isFieldChar (c : Char) : Bool := c.isAlphanum || c = '_' || c = '$'

/-- One `(E)+` entity segment: nonempty, first and last characters are name
characters, interior characters are name characters or whitespace. -/
def isEntitySeg (s : Str) : Bool :=
  match s.head?, s.getLast? with
  | some a, some b =>
    isNameChar a && isNameChar b && s.all (fun c => isNameChar c || isWsChar c)
  | _, _ => false

/-- One `V` field segment: an identifier over letters, digits, `_`, `$`,
not starting with a digit. -/
def isFieldSeg (s : Str) : Bool :=
  match s with
  | [] => false
  | c :: rest => isFieldStartChar c && rest.all isFieldChar

/-- `String.prototype.split(sep)` for a one-character separator. -/
def splitOnChar (sep : Char) : Str → List Str
  | [] => [[]]
  | c :: rest =>
    let r := splitOnChar sep rest
    if c = sep then [] :: r
    else
      match r with
      | [] => [[c]]
      | h :: t => (c :: h) :: t

/-- `path.match(PROPERTY_PATH_REGEX)` as a Boolean: exactly one colon,
every slash-separated entity segment valid, every dot-separated field
segment valid. -/
def isValidPropertyPath (p : Str) : Bool :=
  match splitOnChar ':' p with
  | [e, f] => (splitOnChar '/' e).all isEntitySeg && (splitOnChar '.' f).all isFieldSeg
  | _ => false

/-- A plain JavaScript value reached during field resolution: either a
number (which has no own properties) or an object with named own fields
(for THREE scene objects the animated fields such as `position` are own
properties).  `hasOwnProperty` is `lookupField ≠ none`. -/
inductive JsObj where
  | num (v : JsNum)
  | obj (fields : List (Str × JsObj))

def lookupField : JsObj → Str → Option JsObj
  | .num _, _ => none
  | .obj fs, k => lookupStr fs k

/-- A read-only snapshot of the entity tree as seen by path resolution
(`currentEntity.children` for child lookups, `currentEntity.sceneObject`
for the field walk).  Resolution never mutates entities, so an immutable
tree is a faithful view. -/
inductive EntityNode where
  | mk (name : Str) (sceneObject : JsObj) (children : List (Str × EntityNode))

def EntityNode.sceneObject : EntityNode → JsObj
  | .mk _ o _ => o

def EntityNode.childList : EntityNode → List (Str × EntityNode)
  | .mk _ _ c => c

/-- The entity-path while loop of `resolveProperty`: every segment is a
child lookup; a missing child is the UnknownChild error (`none` here,
mapped to the error at the call site). -/
def childWalk : EntityNode → List Str → Option EntityNode
  | e, [] => some e
  | e, s :: rest =>
    match lookupStr e.childList s with
    | none => none
    | some c => childWalk c rest

/-- The field-path while loop of `resolveProperty`.  EVERY segment is
checked with `hasOwnProperty` (a failed check is UnknownProperty, `none`
here); when the checked segment is the last one the loop continues
without descending, so the result is the object reached so far paired
with the last segment name.  The second argument is the `propertyName`
variable (initially the empty string). -/
def fieldWalk : JsObj → Str → List Str → Option (JsObj × Str)
  | focus, propertyName, [] => some (focus, propertyName)
  | focus, _, p :: rest =>
    match lookupField focus p with
    | none => none
    | some v => if rest.isEmpty then some (focus, p) else fieldWalk v p rest

/-!
## Timeline (src/timeline.ts, class Timeline)

`entityProperties` and `entityPropertiesList` alias the same
`EntityProperty` objects, inserted into both at the same moment and never
removed, so a single association list models both (the list view is its
`map Prod.snd`).  Events carry opaque callback identifiers (`Nat`); an
update returns the identifiers fired, in firing order.  The wall clock
(`Timeline.getTimestamp`) is passed in as the `now` argument; one
`update()` pass reads the clock as a single instant.  The value written
by `update()` into the resolved binding goes to an external scene object
and is not part of the Timeline state.
-/

inductive TimelinePlayState where
  | stopped | playing | paused
  deriving DecidableEq

inductive JsError where
  | malformedPath | duplicateKeyframe | unknownChild | unknownProperty
  | alreadyBound | unknownPropertyPath | unknownKeyframe
  | alreadyParented | alreadyAttachedTimeline | typeError
  deriving DecidableEq

structure EntityProperty where
  enabled : Bool
  object : Option JsObj
  property : Option Str
  timeline : PropertyTimeline

def EntityProperty.new : EntityProperty := ⟨false, none, none, PropertyTimeline.new⟩

structure Timeline where
  loop : Bool
  entity : Option EntityNode
  entityProperties : List (Str × EntityProperty)
  sortedEventTimes : List JsNum
  events : List (JsNum × List Nat)
  eventCursor : Option Nat
  playState : TimelinePlayState
  startTime : JsNum
  pausedTime : JsNum
  length : Option JsNum

/-- `new Timeline(loop)`. -/
def Timeline.new (loop : Bool) : Timeline :=
  ⟨loop, none, [], [], [], none, .stopped, 0, 0, some 0⟩

/-- `resolveProperty(path)` (private).  Early returns: unbound timeline, or
binding already enabled.  A missing `entityProperties[path]` entry would
be a TypeError (`this.entityProperties[path].enabled` on `undefined`);
every call site establishes the entry first.  On success the resolved
object, leaf property name and `enabled = true` are stored; every error
is raised before any mutation. -/
def Timeline.resolveProperty (tl : Timeline) (path : Str) : Option JsError × Timeline :=
  match tl.entity with
  | none => (none, tl)
  | some ent =>
    match lookupStr tl.entityProperties path with
    | none => (some .typeError, tl)
    | some prop =>
      if prop.enabled then (none, tl)
      else if !(isValidPropertyPath path) then (some .malformedPath, tl)
      else
        let parts := splitOnChar ':' path
        let sceneStr := jsArrGet parts 0
        let propStr := jsArrGet parts 1
        match childWalk ent (splitOnChar '/' sceneStr) with
        | none => (some .unknownChild, tl)
        | some target =>
          match fieldWalk target.sceneObject [] (splitOnChar '.' propStr) with
          | none => (some .unknownProperty, tl)
          | some (o, pname) =>
            (none,
              { tl with
                entityProperties := assocSetStr tl.entityProperties path
                  { prop with object := some o, property := some pname, enabled := true } })

/-- `resolveAllProperties` (private): resolve every registered path in
order; a thrown error aborts the iteration (earlier successful
resolutions keep their effects). -/
def Timeline.resolveAllGo (tl : Timeline) : List Str → Option JsError × Timeline
  | [] => (none, tl)
  | k :: rest =>
    match Timeline.resolveProperty tl k with
    | (some e, tl') => (some e, tl')
    | (none, tl') => Timeline.resolveAllGo tl' rest

def Timeline.resolveAllProperties (tl : Timeline) : Option JsError × Timeline :=
  Timeline.resolveAllGo tl (tl.entityProperties.map (fun p => p.1))

/-- `bindToEntity(entity)`: AlreadyBound if an entity is set, else set it
and resolve all pending paths. -/
def Timeline.bindToEntity (tl : Timeline) (ent : EntityNode) : Option JsError × Timeline :=
  match tl.entity with
  | some _ => (some .alreadyBound, tl)
  | none => Timeline.resolveAllProperties { tl with entity := some ent }

/-- `getLength()`: `Math.max` of the last scheduled event time (0 when none)
and every property timeline length; a `length` of `undefined` on any
property timeline poisons the maximum to NaN (`none`). -/
def Timeline.getLength (tl : Timeline) : Option JsNum :=
  let base : JsNum :=
    match tl.sortedEventTimes.getLast? with
    | none => 0
    | some t => t
  tl.entityProperties.foldl
    (fun acc p =>
      match acc, p.2.timeline.length with
      | some a, some b => some (a.max2 b)
      | _, _ => none)
    (some base)

def Timeline.updateLengthCache (tl : Timeline) : Timeline :=
  { tl with length := Timeline.getLength tl }

/-- `addKeyframe(time, propertyPath, value)`: grammar check, lazy creation
of the `EntityProperty` (appended to both the map and the list), duplicate
check, delegate to `PropertyTimeline.addKeyframe`, attempt resolution,
then refresh the cached length.  Note that the keyframe insertion comes
BEFORE the resolution attempt, and the cache refresh after it, so a
resolution error propagates with the keyframe already inserted. -/
def Timeline.addKeyframe (tl : Timeline) (time : JsNum) (path : Str) (value : JsNum) :
    Option JsError × Timeline :=
  if !(isValidPropertyPath path) then (some .malformedPath, tl)
  else
    let tl1 :=
      if (lookupStr tl.entityProperties path).isSome then tl
      else { tl with entityProperties := tl.entityProperties ++ [(path, EntityProperty.new)] }
    match lookupStr tl1.entityProperties path with
    | none => (some .typeError, tl1)
    | some prop =>
      if (lookupNum prop.timeline.keyframes time).isSome then (some .duplicateKeyframe, tl1)
      else
        let tl2 :=
          { tl1 with
            entityProperties := assocSetStr tl1.entityProperties path
              { prop with timeline := prop.timeline.addKeyframe time value } }
        match Timeline.resolveProperty tl2 path with
        | (some e, tl3) => (some e, tl3)
        | (none, tl3) => (none, Timeline.updateLengthCache tl3)

/-- `removeKeyframe(time, propertyPath)`: UnknownPropertyPath if no
property is registered for the path, UnknownKeyframe if the time has no
keyframe, else delegate and refresh the cached length. -/
def Timeline.removeKeyframe (tl : Timeline) (time : JsNum) (path : Str) :
    Option JsError × Timeline :=
  match lookupStr tl.entityProperties path with
  | none => (some .unknownPropertyPath, tl)
  | some prop =>
    if (lookupNum prop.timeline.keyframes time).isNone then (some .unknownKeyframe, tl)
    else
      (none,
        Timeline.updateLengthCache
          { tl with
            entityProperties := assocSetStr tl.entityProperties path
              { prop with timeline := prop.timeline.removeKeyframe time } })

/-- `addEvent(time, callback)`: create the bucket if the time has none,
insert the time into `sortedEventTimes` (default string sort) if new,
push the callback, refresh the cached length. -/
def Timeline.addEvent (tl : Timeline) (time : JsNum) (callback : Nat) : Timeline :=
  let events1 :=
    if (lookupNum tl.events time).isSome then tl.events else tl.events ++ [(time, [])]
  let times1 :=
    if tl.sortedEventTimes.contains time then tl.sortedEventTimes
    else jsSortNums (tl.sortedEventTimes ++ [time])
  let events2 :=
    events1.map (fun p => if p.1 = time then (p.1, p.2 ++ [callback]) else p)
  Timeline.updateLengthCache
    { tl with events := events2, sortedEventTimes := times1 }

/-- `play(startPosition?)`: no-op while Playing; the start offset is the
given position when truthy (0 counts as absent), else the accumulated
paused offset when Paused, else 0. -/
def Timeline.play (tl : Timeline) (now : JsNum) (startPosition : Option JsNum) : Timeline :=
  if tl.playState = .playing then tl
  else
    let truthy : Bool :=
      match startPosition with
      | some sp => !(sp = 0)
      | none => false
    let startOffset :=
      if truthy then startPosition.getD 0
      else if tl.playState = .paused then tl.pausedTime.sub tl.startTime
      else 0
    { tl with startTime := now.sub startOffset, playState := .playing }

/-- `pause()`: no-op unless Playing. -/
def Timeline.pause (tl : Timeline) (now : JsNum) : Timeline :=
  if !(tl.playState = .playing) then tl
  else { tl with pausedTime := now, playState := .paused }

/-- `stop()`: unconditionally transitions to Stopped, touching no other
field. -/
def Timeline.stop (tl : Timeline) : Timeline :=
  { tl with playState := .stopped }

/-- `getTimeElapsed()`. -/
def Timeline.getTimeElapsed (tl : Timeline) (now : JsNum) : JsNum :=
  match tl.playState with
  | .stopped => 0
  | .paused => tl.pausedTime.sub tl.startTime
  | .playing => now.sub tl.startTime

/-- The property-write phase of `update()`: for every enabled binding, in
list order, query `getValue(timeElapsed)` (mutating its cursor); the
returned value is written into the external scene object, which is not
part of this state.  `none` propagates a `getValue` crash. -/
def runProps (te : JsNum) : List (Str × EntityProperty) → Option (List (Str × EntityProperty))
  | [] => some []
  | (k, p) :: rest =>
    if p.enabled then
      match p.timeline.getValue te with
      | none => none
      | some (_v, pt') =>
        (runProps te rest).map (fun r => (k, { p with timeline := pt' }) :: r)
    else (runProps te rest).map (fun r => (k, p) :: r)

/-- The event while loop of `update()`, with its exact (inverted) guard:
the loop continues when the cursor is unset and events exist, or when the
cursor is set and `sortedEventTimes.length - 1 < eventCursor`.  Inside,
the break happens only when `timeElapsed < sortedEventTimes[nextCursor]`
with a defined next time; an out-of-range read compares as false and the
following bucket read is a TypeError (`none`).  Returns the final cursor
and the fired callback identifiers in order. -/
def eventLoop (times : List JsNum) (events : List (JsNum × List Nat)) (te : JsNum) :
    Nat → Option Nat → List Nat → Option (Option Nat × List Nat)
  | 0, _, _ => none
  | fuel+1, cursor, acc =>
    let len := times.length
    let cond : Bool :=
      match cursor with
      | none => len ≠ 0
      | some k => (len : Int) - 1 < (k : Int)
    if cond then
      let nextCursor : Nat :=
        match cursor with
        | none => 0
        | some k => k + 1
      match times.get? nextCursor with
      | some tNext =>
        if te.ltB tNext then some (cursor, acc)
        else
          match lookupNum events tNext with
          | none => none
          | some bucket => eventLoop times events te fuel (some nextCursor) (acc ++ bucket)
      | none => none
  else some (cursor, acc)

/-- The event phase of `update()`: the loop runs only when any event times
exist; its fuel `length + 2` covers every possible iteration count of the
source loop. -/
def eventPhase (tl : Timeline) (te : JsNum) : Option (Timeline × List Nat) :=
  if tl.sortedEventTimes.length > 0 then
    (eventLoop tl.sortedEventTimes tl.events te (tl.sortedEventTimes.length + 2)
        tl.eventCursor []).map
      (fun p => ({ tl with eventCursor := p.1 }, p.2))
  else some (tl, [])

/-- `update()`: no-op when Stopped; property writes, then the event loop,
then the length check: at or past the cached length a looping timeline
rebases `startTime` to `now - (timeElapsed - length)`, clears the event
cursor and re-runs `update()` recursively (the recursion fuel models the
unbounded recursion of the source; every run in this development
terminates within the fuel given), while a non-looping timeline calls
`stop()`.  A `length` of `undefined`/NaN compares as false and skips the
branch.  Returns the state and all callback identifiers fired. -/
def Timeline.update (tl : Timeline) (now : JsNum) : Nat → Option (Timeline × List Nat)
  | 0 => none
  | fuel+1 =>
    if tl.playState = .stopped then some (tl, [])
    else
      let te := Timeline.getTimeElapsed tl now
      match runProps te tl.entityProperties with
      | none => none
      | some props =>
        match eventPhase { tl with entityProperties := props } te with
        | none => none
        | some (tl2, fired) =>
          match tl2.length with
          | some len =>
            if len.leB te then
              if tl2.loop then
                let tl3 := { tl2 with startTime := now.sub (te.sub len), eventCursor := none }
                match Timeline.update tl3 now fuel with
                | none => none
                | some (tl4, fired2) => some (tl4, fired ++ fired2)
              else some (Timeline.stop tl2, fired)
            else some (tl2, fired)
          | none => some (tl2, fired)

/-!
## Entity graph (src/scene.ts, classes Entity and Scene)

Entities are heap cells addressed by `Nat` identifiers; the heap is a
function from identifiers to cells, so object identity and in-place
mutation are explicit.  A cell carries the fields the source reads and
writes: `sceneObject.name` (kept in `name`; the source reads and writes
names only through `sceneObject.name`), the meta parent/children links
(the THREE parent link is kept in lock step with `parent` by `add` and
`remove`, and the AlreadyParented test reads it), the `timelines` map,
and, for a Scene cell (`isScene`), `timelineCacheSet` (a JavaScript `Set`,
modelled as an insertion-ordered duplicate-free list) and the
materialized `timelineCache` array.  Timeline objects appear here only
through their identifier and their `entity` binding field (`TBinds`);
free-standing timelines in these scenarios have no registered property
paths, so `resolveAllProperties` inside `bindToEntity` is the identity
and is not re-modelled.  Operations return `none` for a run that does not
terminate (the `getRoot` loop) or reads a missing heap cell.
-/

structure Ent where
  name : Str
  parent : Option Nat
  children : List (Str × Nat)
  timelines : List (Str × Nat)
  isScene : Bool
  timelineCacheSet : List Nat
  timelineCache : List Nat
  deriving DecidableEq

abbrev Heap := Nat → Option Ent

/-- The `entity` field of every timeline object: `none` means the
identifier is not a live timeline, `some none` an unbound timeline,
`some (some e)` a timeline bound to entity `e`. -/
abbrev TBinds := Nat → Option (Option Nat)

def heapSet (h : Heap) (i : Nat) (e : Ent) : Heap :=
  fun j => if j = i then some e else h j

def tbSet (tb : TBinds) (i : Nat) (v : Option Nat) : TBinds :=
  fun j => if j = i then some v else tb j

/-- The loop of `getRoot()` as written: `while (this.parent !== null)
{ entity = this.parent }`.  The condition reads `this.parent`, which the
body never changes, so the loop terminates only when it is not entered at
all; the fuel makes the nontermination observable as `none` for every
fuel. -/
def getRootLoop (thisParent : Option Nat) : Nat → Nat → Option Nat
  | _, 0 => none
  | entity, fuel+1 =>
    match thisParent with
    | none => some entity
    | some p => getRootLoop thisParent p fuel

/-- `getRoot()`: run the loop starting from `entity = this`. -/
def getRoot (h : Heap) (e : Nat) (fuel : Nat) : Option Nat :=
  match h e with
  | none => none
  | some ent => getRootLoop ent.parent e fuel

/-- `getScene()`: the root if it is typed as a Scene, else `null`; the
outer `none` is an unfinished `getRoot`. -/
def getScene (h : Heap) (e : Nat) (fuel : Nat) : Option (Option Nat) :=
  match getRoot h e fuel with
  | none => none
  | some r =>
    match h r with
    | none => none
    | some rent => some (if rent.isScene then some r else none)

/-- `getAllTimelines()`: iterative BFS; pop the queue front, collect the
timeline values, push the child values. -/
def getAllTimelines (h : Heap) : Nat → List Nat → List Nat → Option (List Nat)
  | _, [], acc => some acc
  | 0, _ :: _, _ => none
  | fuel+1, e :: rest, acc =>
    match h e with
    | none => none
    | some ent =>
      getAllTimelines h fuel (rest ++ ent.children.map (fun p => p.2))
        (acc ++ ent.timelines.map (fun p => p.2))

/-- `Set.prototype.add`: append when absent. -/
def addUnique (l : List Nat) (t : Nat) : List Nat :=
  if l.contains t then l else l ++ [t]

/-- `Scene.registerSceneTimelines(...timelines)`: add each to the set, then
rematerialize the cache array from the set. -/
def registerSceneTimelines (h : Heap) (sc : Nat) (ts : List Nat) : Heap :=
  match h sc with
  | none => h
  | some ent =>
    let set1 := ts.foldl addUnique ent.timelineCacheSet
    heapSet h sc { ent with timelineCacheSet := set1, timelineCache := set1 }

/-- `Scene.unregisterSceneTimelines(...timelines)`: delete each from the
set, then rematerialize the cache array. -/
def unregisterSceneTimelines (h : Heap) (sc : Nat) (ts : List Nat) : Heap :=
  match h sc with
  | none => h
  | some ent =>
    let set1 := ts.foldl (fun l t => l.erase t) ent.timelineCacheSet
    heapSet h sc { ent with timelineCacheSet := set1, timelineCache := set1 }

/-- The unique-name loop shared by `add` and `addTimeline`: append 1, 2,
3, ... to the base name until the result is not a key.  At most
`keys.length + 1` candidates are ever needed, which the fuel covers. -/
def uniqueNameLoop (keys : List Str) (initial : Str) : Str → Nat → Nat → Str
  | name, _, 0 => name
  | name, nameNumber, fuel+1 =>
    if keys.contains name then
      uniqueNameLoop keys initial (initial ++ (Nat.repr (nameNumber + 1)).toList)
        (nameNumber + 1) fuel
    else name

def uniqueName (keys : List Str) (base : Str) : Str :=
  uniqueNameLoop keys base base 0 (keys.length + 1)

/-- `Entity.add(object)` for an `object` that is already an Entity (the
raw-`Object3D` overload wraps first and is not needed by any claim).
Order of effects, exactly as in the source: (1) compute the collision-free
name and write it onto the child; (2) throw AlreadyParented if the child
has a parent; (3) link the child into the THREE graph and the meta graph;
(4) look up the scene via `getScene` (which does not terminate when this
entity has a parent) and register the collected timelines. -/
def Entity.add (h : Heap) (selfId objId : Nat) (fuel : Nat) :
    Option (Option JsError × Heap) :=
  match h selfId, h objId with
  | some self, some obj =>
    let name := uniqueName (self.children.map (fun p => p.1)) obj.name
    let h1 := heapSet h objId { obj with name := name }
    match obj.parent with
    | some _ => some (some .alreadyParented, h1)
    | none =>
      let h2 := heapSet h1 objId { obj with name := name, parent := some selfId }
      match h2 selfId with
      | none => none
      | some self2 =>
        let h3 := heapSet h2 selfId
          { self2 with children := self2.children ++ [(name, objId)] }
        match getScene h3 selfId fuel with
        | none => none
        | some none => some (none, h3)
        | some (some sc) =>
          match getAllTimelines h3 fuel [objId] [] with
          | none => none
          | some ts => some (none, registerSceneTimelines h3 sc ts)
  | _, _ => none

/-- `Entity.remove(name)` (the Entity overload first converts to
`object.sceneObject.name`): UnknownChild when the name is not a child;
else unlink from the THREE graph and the meta graph, then unregister the
subtree timelines when under a Scene. -/
def Entity.remove (h : Heap) (selfId : Nat) (childName : Str) (fuel : Nat) :
    Option (Option JsError × Heap) :=
  match h selfId with
  | none => none
  | some self =>
    match lookupStr self.children childName with
    | none => some (some .unknownChild, h)
    | some childId =>
      match h childId with
      | none => none
      | some child =>
        let h1 := heapSet h childId { child with parent := none }
        match h1 selfId with
        | none => none
        | some self2 =>
          let h2 := heapSet h1 selfId
            { self2 with children := self2.children.filter (fun p => ¬ (p.1 = childName)) }
          match getScene h2 selfId fuel with
          | none => none
          | some none => some (none, h2)
          | some (some sc) =>
            match getAllTimelines h2 fuel [childId] [] with
            | none => none
            | some ts => some (none, unregisterSceneTimelines h2 sc ts)

/-- `Entity.addTimeline(timeline, name?)`: compute a collision-free name
(`'Timeline'` when the argument is falsy), throw if the same timeline
object is already attached, bind the timeline to this entity
(AlreadyBound if it is bound anywhere), and register it into the scene
cache when under a Scene.  The computed unique name is used by nothing
after the duplicate check: the source never stores the timeline into
`this.timelines`. -/
def Entity.addTimeline (h : Heap) (tb : TBinds) (selfId tid : Nat)
    (nameArg : Option Str) (fuel : Nat) : Option (Option JsError × Heap × TBinds) :=
  match h selfId with
  | none => none
  | some self =>
    let base :=
      match nameArg with
      | none => "Timeline".toList
      | some n => if n = [] then "Timeline".toList else n
    let _uniq := uniqueName (self.timelines.map (fun p => p.1)) base
    if self.timelines.any (fun p => p.2 = tid) then
      some (some .alreadyAttachedTimeline, h, tb)
    else
      match tb tid with
      | none => none
      | some (some _) => some (some .alreadyBound, h, tb)
      | some none =>
        let tb1 := tbSet tb tid (some selfId)
        match getScene h selfId fuel with
        | none => none
        | some none => some (none, h, tb1)
        | some (some sc) => some (none, registerSceneTimelines h sc [tid], tb1)

/-!
## Concrete scenarios used by the claims
-/

def pathAX : Str := "a:x".toList

def pathAY : Str := "a:y".toList

/-- C1 scenario: a fresh `new Scene()` (the THREE.Scene default name is the
empty string) at heap cell 0. -/
def c1Scene : Ent := ⟨[], none, [], [], true, [], []⟩

def c1Heap : Heap := fun i => if i = 0 then some c1Scene else none

/-- C1 scenario: one fresh, unbound Timeline object, identifier 0. -/
def c1TB : TBinds := fun t => if t = 0 then some none else none

/-- C1 scenario: `scene.addTimeline(timeline)`. -/
def c1Run : Option (Option JsError × Heap × TBinds) :=
  Entity.addTimeline c1Heap c1TB 0 0 none 4

/-- C2 scenario: entity 0 is a Scene root, entity 1 is its child. -/
def c2Root : Ent := ⟨"r".toList, none, [("c".toList, 1)], [], true, [], []⟩

def c2Child : Ent := ⟨"c".toList, some 0, [], [], false, [], []⟩

def c2Heap : Heap :=
  fun i => if i = 0 then some c2Root else if i = 1 then some c2Child else none

/-- C3 scenario: events at times 1, 1 and 2 (callback identifiers 10, 11,
12 in registration order), played from wall-clock 0. -/
def c3Timeline : Timeline :=
  Timeline.play
    (Timeline.addEvent (Timeline.addEvent (Timeline.addEvent (Timeline.new false) 1 10) 1 11)
      2 12)
    0 none

/-- C4 and C7 scenario: keyframes at times 2 (value 5) and 10 (value 7). -/
def c4Pt : PropertyTimeline :=
  (PropertyTimeline.new.addKeyframe 2 5).addKeyframe 10 7

/-- C5 counterexample scenario: a Timeline bound to an entity that has no
children, so the path `a:x` cannot resolve. -/
def c5Ent : EntityNode := .mk ("e".toList) (JsObj.obj []) []

def c5Bound : Timeline := (Timeline.bindToEntity (Timeline.new false) c5Ent).2

def c5CexRun : Option JsError × Timeline := Timeline.addKeyframe c5Bound 1 pathAX 5

/-- C5 witness scenario: an unbound Timeline holding one keyframe at
(time 1, path `a:x`, value 5). -/
def c5Tl1 : Timeline := (Timeline.addKeyframe (Timeline.new false) 1 pathAX 5).2

/-- C6 counterexample scenario: entity 0 (with a child named `a`, cell 1)
receives `add` of entity 3, which is named `a` and is already a child of
entity 2. -/
def c6Self : Ent := ⟨"p".toList, none, [("a".toList, 1)], [], false, [], []⟩

def c6Existing : Ent := ⟨"a".toList, some 0, [], [], false, [], []⟩

def c6Other : Ent := ⟨"q".toList, none, [("a".toList, 3)], [], false, [], []⟩

def c6Child : Ent := ⟨"a".toList, some 2, [], [], false, [], []⟩

def c6Heap : Heap :=
  fun i =>
    if i = 0 then some c6Self
    else if i = 1 then some c6Existing
    else if i = 2 then some c6Other
    else if i = 3 then some c6Child
    else none

/-- C8 scenario: the binding entity has a child `a` whose scene object has
no fields at all, so the single (hence final) field segment `y` of `a:y`
is missing. -/
def c8Ent : EntityNode :=
  .mk ("e".toList) (JsObj.obj []) [("a".toList, .mk ("a".toList) (JsObj.obj []) [])]

def c8Tl1 : Timeline := (Timeline.addKeyframe (Timeline.new false) 1 pathAY 5).2

def c8BindRun : Option JsError × Timeline := Timeline.bindToEntity c8Tl1 c8Ent

/-- C9 scenario: a looping Timeline whose cached length is 2 (one keyframe
at time 2 on the not-yet-resolvable path `a:x`) and one event at time 0.25
(callback identifier 7), played from wall-clock 0 and updated at
wall-clock 2.5, i.e. with elapsed time 2.5. -/
def c9Timeline : Timeline :=
  Timeline.play
    (Timeline.addEvent ((Timeline.addKeyframe (Timeline.new true) 2 pathAX 5).2) ⟨1, 4⟩ 7)
    0 none

/-- C10 helper: the test `timeElapsed >= this.length` of `update()`, false
when the cached length is `undefined`/NaN. -/
def atOrPastLength (tl : Timeline) (now : JsNum) : Bool :=
  match tl.length with
  | some len => len.leB (Timeline.getTimeElapsed tl now)
  | none => false

/-- C10 witness scenario: events at times 1 and 2 (callbacks 5 and 6);
play at 0, update at 1.5 (fires callback 5, cursor moves to 0), stop,
play again at 10. -/
def c10T0 : Timeline :=
  Timeline.play (Timeline.addEvent (Timeline.addEvent (Timeline.new false) 1 5) 2 6) 0 none

def c10T1 : Timeline :=
  ((Timeline.update c10T0 ⟨3, 2⟩ 2).map (fun p => p.1)).getD (Timeline.new false)

def c10T3 : Timeline := Timeline.play (Timeline.stop c10T1) 10 none

/-!
## Claims
-/

/-- C1 (code_bug evidence).  The claim states that `timelineCache` always
equals the set of Timelines reachable through `timelines` over the
subtree.  Already the first `scene.addTimeline(timeline)` breaks this:
the call registers the timeline into the cache (and binds it), but never
stores it into `this.timelines` (the computed unique name is dropped), so
the cache holds identifier 0 while the reachable set is empty; the
remove/re-add round trip of Scenario E is unrealizable. -/
theorem timelineCache_desyncs_from_reachable_timelines :
    c1Run.map
        (fun r =>
          (r.1, (r.2.1 0).map Ent.timelineCache, getAllTimelines r.2.1 4 [0] [], r.2.2 0)) =
      some (none, some [0], some [], some (some 0)) := by decide

/-- C2 helper: the `getRoot` loop never terminates when `this.parent` is
set, because the loop condition reads `this.parent` while the body only
reassigns the local `entity`. -/
theorem getRootLoop_parent_some (p : Nat) :
    ∀ (ent fuel : Nat), getRootLoop (some p) ent fuel = none := by
  intro ent fuel
  induction fuel generalizing ent with
  | zero => rfl
  | succ n ih => exact ih p

/-- C2 (code_bug evidence).  `getRoot()` returns the root only for an
entity that already is the root; for any entity with a parent the loop
`while (this.parent !== null) { entity = this.parent }` never terminates
(the fuel-indexed run is `none` for every fuel), and `getScene()`
diverges with it.  The claim says `getRoot` terminates for every entity
of a finite tree. -/
theorem getRoot_diverges_for_parented_entity :
    (∀ fuel, getRoot c2Heap 1 fuel = none) ∧
    (∀ fuel, getScene c2Heap 1 fuel = none) ∧
    getRoot c2Heap 0 5 = some 0 ∧ getScene c2Heap 0 5 = some (some 0) := by
  have hr : ∀ fuel, getRoot c2Heap 1 fuel = none := by
    intro fuel
    show getRootLoop (some 0) 1 fuel = none
    exact getRootLoop_parent_some 0 1 fuel
  refine ⟨hr, ?_, by decide, by decide⟩
  intro fuel
  show (match getRoot c2Heap 1 fuel with
    | none => none
    | some r =>
      match c2Heap r with
      | none => none
      | some rent => some (if rent.isScene then some r else none)) = none
  rw [hr fuel]

/-- C3 (code_bug evidence).  One `update()` with elapsed time 3 over events
at times 1, 1, 2 fires both time-1 callbacks in registration order but
never reaches the time-2 bucket, because the loop guard
`sortedEventTimes.length - 1 < eventCursor` is inverted (its own comment
describes the opposite test); the claim says every bucket at or before
the elapsed time fires in one pass. -/
theorem update_fires_only_first_due_event_bucket :
    (Timeline.update c3Timeline 3 3).map (fun p => (p.2, p.1.playState, p.1.eventCursor)) =
      some ([10, 11], .stopped, some 0) := by decide

/-- C4 (code_bug evidence).  After `addKeyframe(2, 5)` and
`addKeyframe(10, 7)` the times are sorted by `Array.prototype.sort()`
with no comparator, i.e. as strings: `sortedTimes` is `[10, 2]`, not the
ascending numeric `[2, 10]` the claim states, and the cached `length`
(the last element) is 2 rather than the maximum keyframe time 10. -/
theorem sortedTimes_is_string_sorted_not_numeric :
    c4Pt.sortedTimes = [10, 2] ∧ c4Pt.length = some 2 ∧
    lookupNum c4Pt.keyframes 2 = some 5 ∧ lookupNum c4Pt.keyframes 10 = some 7 := by decide

/-- C7 (code_bug evidence).  With keyframes (2, 5) and (10, 7) stored (so
`sortedTimes = [10, 2]` by the string sort), `getValue(10)` returns 5,
the value of the keyframe at time 2, instead of the stored value 7; the
claim says evaluation at an existing keyframe time returns that
keyframe's value exactly, regardless of the numeric magnitudes. -/
theorem getValue_misses_existing_keyframe :
    (c4Pt.getValue 10).map (fun p => p.1) = some (some 5) ∧
    lookupNum c4Pt.keyframes 10 = some 7 := by decide

/-- C9 (confirmed).  A looping Timeline with cached length 2, updated when
the elapsed time is 2.5: `startTime` is rebased to `now - 0.5` (forward
by the length 2), so the elapsed time becomes exactly the overflow 0.5;
the event cursor is cleared to none-fired and the update re-runs for the
new cycle, which is also observable in the event at time 0.25 firing a
second time in the same pass; `stop()` is not called and the state stays
Playing. -/
theorem update_loop_rebase_scenario :
    (Timeline.update c9Timeline ⟨5, 2⟩ 3).map
        (fun p =>
          (p.2, p.1.playState, p.1.startTime, Timeline.getTimeElapsed p.1 ⟨5, 2⟩,
            p.1.eventCursor)) =
      some ([7, 7], .playing, 2, ⟨1, 2⟩, some 0) ∧
    c9Timeline.length = some 2 ∧ c9Timeline.loop = true ∧ c9Timeline.startTime = 0 := by
  decide

/-- C6 (amended, proved).  When the child of `add` already has a parent the
call fails with AlreadyParented and changes no parent or child link in
either tree: the result heap is the input heap with only the child's
`name` field rewritten to the collision-resolved name (which, as the
second conjunct shows, equals the original name exactly when no sibling
collision exists; the counterexample shows the rename is real when a
collision does exist). -/
theorem add_alreadyParented_preserves_links (h : Heap) (selfId objId : Nat)
    (self obj : Ent) (p : Nat) (fuel : Nat)
    (hself : h selfId = some self) (hobj : h objId = some obj)
    (hp : obj.parent = some p) :
    Entity.add h selfId objId fuel =
      some (some .alreadyParented,
        heapSet h objId
          { obj with name := uniqueName (self.children.map (fun q => q.1)) obj.name }) ∧
    ((self.children.map (fun q => q.1)).contains obj.name = false →
      uniqueName (self.children.map (fun q => q.1)) obj.name = obj.name) := by
  constructor
  · unfold Entity.add
    simp only [hself, hobj, hp]
  · intro hc
    unfold uniqueName uniqueNameLoop
    simp only [hc]
    simp

/-- C6 (counterexample).  Adding entity 3 (named `a`, already a child of
entity 2) to entity 0, which already has a child named `a`, fails with
AlreadyParented as claimed and changes no link, but the rejected child's
name has already been rewritten from `a` to the collision-resolved `a1`
before the failure, so the child does not keep its original name. -/
theorem add_alreadyParented_renames_child :
    (Entity.add c6Heap 0 3 2).map (fun r => r.1) = some (some .alreadyParented) ∧
    (Entity.add c6Heap 0 3 2).map (fun r => (r.2 3).map Ent.name) =
      some (some ("a1".toList)) ∧
    (Entity.add c6Heap 0 3 2).map (fun r => (r.2 3).map Ent.parent) =
      some (some (some 2)) ∧
    (Entity.add c6Heap 0 3 2).map (fun r => (r.2 0).map Ent.children) =
      some (some [("a".toList, 1)]) ∧
    (Entity.add c6Heap 0 3 2).map (fun r => (r.2 2).map Ent.children) =
      some (some [("a".toList, 3)]) ∧
    (c6Heap 3).map Ent.name = some ("a".toList) :=
  ⟨by decide, by decide, by decide, by decide, by decide, by decide⟩

/-- C6 (witness).  The preservation theorem applied to the concrete
counterexample heap. -/
theorem add_alreadyParented_preserves_links_witness :
    Entity.add c6Heap 0 3 2 =
      some (some .alreadyParented,
        heapSet c6Heap 3
          { c6Child with
            name := uniqueName (c6Self.children.map (fun q => q.1)) c6Child.name }) :=
  (add_alreadyParented_preserves_links c6Heap 0 3 c6Self c6Child 2 2
    (by decide) (by decide) (by decide)).1

/-- C8 (amended, proved).  The field walk of `resolveProperty` requires
EVERY segment, the final one included, to exist on the object reached so
far: a missing segment (at any position) is the UnknownProperty failure;
a present final segment is checked but not descended into (the walk
returns the object reached so far together with the final segment name);
a present non-final segment is descended into. -/
theorem fieldWalk_checks_every_segment :
    (∀ (o : JsObj) (pn s : Str) (rest : List Str),
      lookupField o s = none → fieldWalk o pn (s :: rest) = none) ∧
    (∀ (o : JsObj) (pn s : Str) (v : JsObj),
      lookupField o s = some v → fieldWalk o pn [s] = some (o, s)) ∧
    (∀ (o : JsObj) (pn s : Str) (v : JsObj) (rest : List Str),
      lookupField o s = some v → rest ≠ [] →
      fieldWalk o pn (s :: rest) = fieldWalk v s rest) := by
  refine ⟨?_, ?_, ?_⟩
  · intro o pn s rest hl
    simp [fieldWalk, hl]
  · intro o pn s v hl
    simp [fieldWalk, hl]
  · intro o pn s v rest hl hr
    cases rest with
    | nil => exact absurd rfl hr
    | cons a t => simp [fieldWalk, hl]

/-- C8 (counterexample).  Binding a timeline holding the path `a:y` to an
entity whose child `a` exposes no field `y` fails with UnknownProperty
even though `y` is the final (leaf) segment, which the claim says need
not yet exist; the binding stays unresolved (`enabled` false). -/
theorem resolution_fails_when_leaf_missing :
    c8BindRun.1 = some .unknownProperty ∧
    (lookupStr c8BindRun.2.entityProperties pathAY).map (fun p => p.enabled) =
      some false := by decide

/-- C8 (witness).  The three parts of the field-walk theorem applied to
concrete objects: a missing leaf fails, a present leaf is not descended
into, a present interior segment is descended into. -/
theorem fieldWalk_checks_every_segment_witness :
    fieldWalk (JsObj.obj []) [] ["y".toList] = none ∧
    fieldWalk (JsObj.obj [("x".toList, JsObj.num 1)]) [] ["x".toList] =
      some (JsObj.obj [("x".toList, JsObj.num 1)], "x".toList) ∧
    fieldWalk (JsObj.obj [("x".toList, JsObj.num 1)]) [] ["x".toList, "y".toList] =
      fieldWalk (JsObj.num 1) ("x".toList) ["y".toList] :=
  ⟨fieldWalk_checks_every_segment.1 (JsObj.obj []) [] ("y".toList) [] rfl,
   fieldWalk_checks_every_segment.2.1 (JsObj.obj [("x".toList, JsObj.num 1)]) []
     ("x".toList) (JsObj.num 1) rfl,
   fieldWalk_checks_every_segment.2.2 (JsObj.obj [("x".toList, JsObj.num 1)]) []
     ("x".toList) (JsObj.num 1) ["y".toList] rfl (by simp)⟩

/-- C5 helper: a successful grammar check rules the MalformedPath arm of
`resolveProperty` out, and no arm of `resolveProperty` raises
DuplicateKeyframe. -/
theorem resolveProperty_error_shape (tl : Timeline) (path : Str)
    (hv : isValidPropertyPath path = true) :
    (Timeline.resolveProperty tl path).1 = none ∨
    (Timeline.resolveProperty tl path).1 = some .typeError ∨
    (Timeline.resolveProperty tl path).1 = some .unknownChild ∨
    (Timeline.resolveProperty tl path).1 = some .unknownProperty := by
  unfold Timeline.resolveProperty
  cases he : tl.entity with
  | none => simp
  | some ent =>
    cases hlk : lookupStr tl.entityProperties path with
    | none => simp
    | some prop =>
      by_cases hen : prop.enabled
      · simp [hen]
      · simp only [hen, hv, Bool.not_true, Bool.false_eq_true, if_false]
        cases hcw : childWalk ent (splitOnChar '/' (jsArrGet (splitOnChar ':' path) 0)) with
        | none => simp
        | some target =>
          cases hfw : fieldWalk target.sceneObject []
              (splitOnChar '.' (jsArrGet (splitOnChar ':' path) 1)) with
          | none => simp [hfw]
          | some op => simp [hfw]

/-- C5 helper: appending a fresh entry makes it visible to lookup. -/
theorem lookupStr_append_self {α : Type} (l : List (Str × α)) (k : Str) (v : α)
    (h : lookupStr l k = none) : lookupStr (l ++ [(k, v)]) k = some v := by
  induction l with
  | nil => simp [lookupStr]
  | cons a t ih =>
    simp only [List.cons_append, lookupStr] at h ⊢
    by_cases hk : a.1 = k
    · rw [if_pos hk] at h
      exact absurd h (by simp)
    · rw [if_neg hk] at h ⊢
      exact ih h

/-- C5 helper: the tail of `addKeyframe` after a keyframe insertion (the
resolution attempt plus the length-cache refresh) can surface resolution
errors, but never MalformedPath (the grammar was already checked) nor
DuplicateKeyframe. -/
theorem resolveTail_no_malformed_dup (tl2 : Timeline) (path : Str)
    (hv : isValidPropertyPath path = true) (e : JsError)
    (he : e = .malformedPath ∨ e = .duplicateKeyframe) :
    (match Timeline.resolveProperty tl2 path with
     | (some er, tl3) => (some er, tl3)
     | (none, tl3) => (none, Timeline.updateLengthCache tl3)).1 ≠ some e := by
  have hshape := resolveProperty_error_shape tl2 path hv
  rcases hres : Timeline.resolveProperty tl2 path with ⟨r, tl3⟩
  rcases r with _ | er2
  · simp
  · simp only [] at hshape ⊢
    rcases he with he | he <;> rcases hshape with h | h | h | h <;> simp_all

/-- C5 (amended, proved).  `Timeline.addKeyframe` leaves the state
completely unchanged when it fails with MalformedPath (checked before any
mutation) or DuplicateKeyframe (a duplicate is only possible for a
pre-existing property entry, which is not touched before the throw); the
accompanying counterexample shows the third failure mode of the claim, a
resolution error on a bound Timeline, is NOT atomic: the keyframe stays
inserted, the lazily created entry persists and the cached length goes
stale. -/
theorem addKeyframe_unchanged_on_malformed_or_duplicate
    (tl : Timeline) (time : JsNum) (path : Str) (value : JsNum)
    (herr : (Timeline.addKeyframe tl time path value).1 = some .malformedPath ∨
            (Timeline.addKeyframe tl time path value).1 = some .duplicateKeyframe) :
    (Timeline.addKeyframe tl time path value).2 = tl := by
  by_cases hv : isValidPropertyPath path = true
  · unfold Timeline.addKeyframe at herr ⊢
    simp only [hv, Bool.not_true, Bool.false_eq_true, if_false] at herr ⊢
    cases hlk : lookupStr tl.entityProperties path with
    | some prop =>
      simp only [hlk, Option.isSome_some, if_true] at herr ⊢
      cases hd : lookupNum prop.timeline.keyframes time with
      | some v0 =>
        simp [hd]
      | none =>
        simp only [hd, Option.isSome_none, Bool.false_eq_true, if_false] at herr
        rcases herr with h | h
        · exact absurd h (resolveTail_no_malformed_dup _ path hv _ (Or.inl rfl))
        · exact absurd h (resolveTail_no_malformed_dup _ path hv _ (Or.inr rfl))
    | none =>
      have hadd := lookupStr_append_self tl.entityProperties path EntityProperty.new hlk
      simp only [hlk, Option.isSome_none, Bool.false_eq_true, if_false, hadd] at herr
      simp only [EntityProperty.new, PropertyTimeline.new, lookupNum, Option.isSome_none,
        Bool.false_eq_true, if_false] at herr
      rcases herr with h | h
      · exact absurd h (resolveTail_no_malformed_dup _ path hv _ (Or.inl rfl))
      · exact absurd h (resolveTail_no_malformed_dup _ path hv _ (Or.inr rfl))
  · unfold Timeline.addKeyframe
    simp only [Bool.not_eq_true] at hv
    simp [hv]

/-- C5 (counterexample).  On a Timeline bound to an entity with no
children, `addKeyframe(1, "a:x", 5)` fails with UnknownChild, yet the
keyframe is already inserted (new property entry present, keyframe (1, 5)
stored, the property timeline length recomputed to 1) while the cached
Timeline length was NOT refreshed (still 0): the failed call mutated
state, contradicting the no-partial-mutation claim. -/
theorem addKeyframe_resolution_error_leaves_partial_mutation :
    c5CexRun.1 = some .unknownChild ∧
    (lookupStr c5CexRun.2.entityProperties pathAX).map (fun p => p.timeline.keyframes) =
      some [(1, 5)] ∧
    (lookupStr c5CexRun.2.entityProperties pathAX).map (fun p => p.timeline.length) =
      some (some 1) ∧
    c5CexRun.2.length = some 0 ∧
    (lookupStr c5Bound.entityProperties pathAX).isNone = true :=
  ⟨by decide, by decide, by decide, by decide, by decide⟩

/-- C5 (witness).  The atomicity theorem applied to the duplicate case of
Scenario B: a second `addKeyframe` at the occupied (time 1, path `a:x`)
fails with DuplicateKeyframe, the state is exactly the previous one, and
the stored value at time 1 is still 5. -/
theorem addKeyframe_unchanged_witness :
    (Timeline.addKeyframe c5Tl1 1 pathAX 9).1 = some .duplicateKeyframe ∧
    (Timeline.addKeyframe c5Tl1 1 pathAX 9).2 = c5Tl1 ∧
    (lookupStr c5Tl1.entityProperties pathAX).map (fun p => lookupNum p.timeline.keyframes 1) =
      some (some 5) :=
  ⟨by decide,
   addKeyframe_unchanged_on_malformed_or_duplicate c5Tl1 1 pathAX 9 (Or.inr (by decide)),
   by decide⟩

/-- C10 helper: with the event cursor set to a valid index, the event loop
of `update()` exits immediately without firing anything (its continue
guard demands a cursor PAST the last index), leaving the state untouched. -/
theorem eventPhase_set_cursor (tl : Timeline) (te : JsNum) (k : Nat)
    (hc : tl.eventCursor = some k) (hk : k < tl.sortedEventTimes.length) :
    eventPhase tl te = some (tl, []) := by
  unfold eventPhase
  have hpos : 0 < tl.sortedEventTimes.length := Nat.lt_of_le_of_lt (Nat.zero_le k) hk
  rw [if_pos hpos]
  have h2 : tl.sortedEventTimes.length + 2 = (tl.sortedEventTimes.length + 1) + 1 := rfl
  rw [h2]
  unfold eventLoop
  rw [hc]
  have hcond : ¬ ((tl.sortedEventTimes.length : Int) - 1 < (k : Int)) := by omega
  simp only [hcond, decide_False, Bool.false_eq_true, if_false, Option.map_some]
  rw [← hc]
  rfl

/-- C10 (confirmed).  First: `stop()` rewrites `playState` alone, leaving
`startTime`, `pausedTime`, the event cursor, all property bindings with
their keyframes, and the scheduled events untouched.  Second: as long as
no loop rebase happens in the pass (non-looping timeline, or elapsed
still below the cached length), an `update()` on a timeline whose event
cursor is set to a valid index fires NO callback at all, in particular
none at or before the cursor position: after stop() and play() the
already-passed events cannot fire again until a rebase clears the cursor. -/
theorem stop_only_playState_and_cursor_blocks_refire :
    (∀ tl : Timeline, Timeline.stop tl = { tl with playState := .stopped }) ∧
    (∀ (tl : Timeline) (now : JsNum) (fuel k : Nat),
      tl.eventCursor = some k →
      k < tl.sortedEventTimes.length →
      (tl.loop = false ∨ atOrPastLength tl now = false) →
      (runProps (Timeline.getTimeElapsed tl now) tl.entityProperties).isSome = true →
      (Timeline.update tl now (fuel + 1)).map (fun p => p.2) = some []) := by
  constructor
  · intro tl
    rfl
  · intro tl now fuel k hc hk hnl hrp
    unfold Timeline.update
    by_cases hps : tl.playState = .stopped
    · rw [if_pos hps]
      rfl
    · rw [if_neg hps]
      obtain ⟨props, hprops⟩ := Option.isSome_iff_exists.mp hrp
      simp only [hprops]
      have hc1 : ({ tl with entityProperties := props } : Timeline).eventCursor = some k := hc
      have hk1 :
          k < ({ tl with entityProperties := props } : Timeline).sortedEventTimes.length := hk
      rw [eventPhase_set_cursor _ (Timeline.getTimeElapsed tl now) k hc1 hk1]
      simp only []
      cases hL : tl.length with
      | none =>
        simp only [hL]
        rfl
      | some len =>
        simp only [hL]
        cases hle : len.leB (Timeline.getTimeElapsed tl now) with
        | false =>
          simp only [hle, Bool.false_eq_true, if_false, Option.map_some]
          rfl
        | true =>
          simp only [hle, if_true]
          rcases hnl with hloop | hno
          · simp only [hloop, Bool.false_eq_true, if_false, Option.map_some]
            rfl
          · unfold atOrPastLength at hno
            rw [hL] at hno
            simp only [] at hno
            rw [hle] at hno
            exact absurd hno (by decide)

/-- C10 (witness).  Events at times 1 and 2; play at 0 and update at 1.5
fires callback 5 and leaves the cursor at index 0; after `stop()` and
`play()` at wall-clock 10, an update at 11.9 (elapsed 1.9, past both the
time-1 bucket and nothing else) fires nothing. -/
theorem stop_only_playState_witness :
    c10T3.eventCursor = some 0 ∧
    (Timeline.update c10T0 ⟨3, 2⟩ 2).map (fun p => p.2) = some [5] ∧
    (Timeline.update c10T3 ⟨119, 10⟩ 3).map (fun p => p.2) = some [] :=
  ⟨by decide, by decide,
   stop_only_playState_and_cursor_blocks_refire.2 c10T3 ⟨119, 10⟩ 2 0 (by decide) (by decide)
     (Or.inl (by decide)) (by decide)⟩
